import Mathlib

/-!
Verification of the RPC proxy / response-normalization layer of the
Mono-SoloCopilot repository.

The embedded code lives in:
  * apps/solocopilot/src/trpc/routers/gw.ts (schemas, createFormData,
    handleApiResponse, the tRPC operation catalog), and
  * apps/solocopilot/src/modules/api/ky.ts (the ky clients and the plain
    fetch based client createApiServerForTRPC).

JSON values are modelled by an inductive type; JavaScript numbers are
modelled as integers (every numeric field handled by this layer is an
integer: ids, page, limit, total, maxPages).  zod schemas are modelled as
parse functions Json -> Option Json returning the stripped parsed value,
mirroring zod safeParse (objects strip unknown keys, unions try branches
in order).  The fetch Response object is modelled with an explicit
bodyUsed flag, since Response.json() consumes the body stream.
-/

namespace SoloCopilot

/-- A JSON value (JavaScript numbers restricted to integers, see above). -/
inductive Json where
  | null
  | bool (b : Bool)
  | num (n : Int)
  | str (s : String)
  | arr (xs : List Json)
  | obj (fields : List (String × Json))
deriving Repr

/-- Property access `j[k]` on a JSON value: on a non-object it yields
`none` (JavaScript would yield `undefined`). -/
def Json.getField : Json → String → Option Json
  | .obj fields, k => (fields.find? (fun kv => kv.1 = k)).map (·.2)
  | _, _ => none

/-- JavaScript truthiness of a JSON value. -/
def jsTruthy : Json → Bool
  | .null => false
  | .bool b => b
  | .num n => n != 0
  | .str s => s != ""
  | .arr _ => true
  | .obj _ => true

/-- Truthiness of an optional field value (`undefined` is falsy). -/
def jsTruthyOpt : Option Json → Bool
  | none => false
  | some j => jsTruthy j

/-- JavaScript `String(value)` coercion for the primitive JSON values that
reach it in this code base (arrays/objects never do: every value handed to
`String` by `createFormData` has already passed a zod string/number
schema). -/
def jsStringCoerce : Json → String
  | .null => "null"
  | .bool b => if b then "true" else "false"
  | .num n => toString n
  | .str s => s
  | .arr _ => ""
  | .obj _ => "[object Object]"

/-! ### zod schema model

A schema is a parse function `Json → Option Json`; `some v` is a
successful parse returning the stripped value `v`, `none` is a
validation failure. -/

/-- Field role in a `z.object` shape: required or `.optional()`. -/
inductive ZField where
  | required (p : Json → Option Json)
  | optional (p : Json → Option Json)

/-- The value parser of a field, regardless of its role. -/
def ZField.valueParser : ZField → (Json → Option Json)
  | .required p => p
  | .optional p => p

/-- Parse the declared fields of a `z.object` shape against a JSON value,
producing the output fields in declaration order; unknown keys are
stripped (zod default), a missing optional field is omitted, a missing
required field fails. -/
def parseFields : List (String × ZField) → Json → Option (List (String × Json))
  | [], _ => some []
  | (k, fld) :: rest, j =>
    match j.getField k with
    | none =>
      match fld with
      | .required _ => none
      | .optional _ => parseFields rest j
    | some v =>
      match fld.valueParser v with
      | none => none
      | some v' => (parseFields rest j).map (fun tl => (k, v') :: tl)

/-- `z.object(shape)`: rejects non-objects, parses the declared fields. -/
def zObject (shape : List (String × ZField)) : Json → Option Json :=
  fun j =>
    match j with
    | .obj _ => (parseFields shape j).map Json.obj
    | _ => none

/-- `z.string()`. -/
def zString : Json → Option Json
  | .str s => some (.str s)
  | _ => none

/-- `z.string().min(n)`. -/
def zStringMin (n : Nat) : Json → Option Json
  | .str s => if n ≤ s.length then some (.str s) else none
  | _ => none

/-- `z.number()`. -/
def zNumber : Json → Option Json
  | .num n => some (.num n)
  | _ => none

/-- `z.boolean()`. -/
def zBoolean : Json → Option Json
  | .bool b => some (.bool b)
  | _ => none

/-- `z.literal(b)` for a boolean literal. -/
def zLiteralBool (b : Bool) : Json → Option Json
  | .bool b' => if b' = b then some (.bool b') else none
  | _ => none

/-- `z.array(p)`. -/
def zArray (p : Json → Option Json) : Json → Option Json
  | .arr xs => (xs.mapM p).map Json.arr
  | _ => none

/-- `z.union([p, q])`: try the branches in order, first success wins. -/
def zUnion2 (p q : Json → Option Json) : Json → Option Json :=
  fun j =>
    match p j with
    | some v => some v
    | none => q j

/-- `.refine(pred)`: parse, then check the predicate on the parsed value. -/
def zRefine (p : Json → Option Json) (pred : Json → Bool) : Json → Option Json :=
  fun j =>
    match p j with
    | none => none
    | some v => if pred v then some v else none

/-! ### Multipart encoding: `createFormData` (gw.ts lines 206-222)

JavaScript values handed to `createFormData` are modelled by `JsValue`
(`undefined` is a possible field value there, unlike in parsed JSON).
A `FormData` object is a list of key/part pairs. -/

/-- A `File` value: name plus binary content (bytes as a string). -/
structure FileVal where
  name : String
  content : String
deriving Repr, DecidableEq

/-- A JavaScript value appearing as a field of the record passed to
`createFormData`. -/
inductive JsValue where
  | undef
  | null
  | bool (b : Bool)
  | num (n : Int)
  | str (s : String)
  | file (f : FileVal)
  | blob (content : String)
deriving Repr, DecidableEq

/-- One part of a `FormData` body: a text field or a binary part. -/
inductive FormValue where
  | text (s : String)
  | filePart (f : FileVal)
  | blobPart (content : String)
deriving Repr, DecidableEq

/-- `String(value)` for a `JsValue` (only non-file branches are ever
reached: files are appended directly). -/
def JsValue.jsString : JsValue → String
  | .undef => "undefined"
  | .null => "null"
  | .bool b => if b then "true" else "false"
  | .num n => toString n
  | .str s => s
  | .file f => f.name
  | .blob _ => "[object Blob]"

/-- The loop body of `createFormData` (gw.ts 209-219): skip `undefined`
and `null`; append `File`/`Blob` values as binary parts; append
`value.toString()` for booleans; append `String(value)` for the rest. -/
def appendFormEntry (formData : List (String × FormValue)) (kv : String × JsValue) :
    List (String × FormValue) :=
  let key := kv.1
  match kv.2 with
  | .undef => formData
  | .null => formData
  | .file f => formData ++ [(key, .filePart f)]
  | .blob c => formData ++ [(key, .blobPart c)]
  | .bool b => formData ++ [(key, .text (if b then "true" else "false"))]
  | v => formData ++ [(key, .text v.jsString)]

/-- `createFormData` (gw.ts 206-222): start from an empty `FormData` and
fold the record entries through the loop body above. -/
def createFormData (data : List (String × JsValue)) : List (String × FormValue) :=
  data.foldl appendFormEntry []

/-- The effect of `createFormData` on a single entry (used to state its
specification as a `filterMap`). -/
def serializeEntry (kv : String × JsValue) : Option (String × FormValue) :=
  match kv.2 with
  | .undef => none
  | .null => none
  | .file f => some (kv.1, .filePart f)
  | .blob c => some (kv.1, .blobPart c)
  | .bool b => some (kv.1, .text (if b then "true" else "false"))
  | v => some (kv.1, .text v.jsString)

/-! ### The API response envelope schema (gw.ts lines 37-57)

`ApiResponse(dataSchema)` is a `z.union` of the success envelope and the
failure envelope. -/

/-- The `meta` sub-schema of the success envelope. -/
def zMeta : Json → Option Json :=
  zObject
    [("page", .optional zNumber),
     ("limit", .optional zNumber),
     ("total", .optional zNumber),
     ("hasMore", .optional zBoolean)]

/-- The `error` sub-schema of the failure envelope. -/
def zApiError : Json → Option Json :=
  zObject
    [("code", .required zString),
     ("message", .required zString),
     ("details", .optional zString)]

/-- `ApiResponse(dataSchema)` (gw.ts 37-57): union of the success and
failure envelope shapes. -/
def ApiResponse (dataSchema : Json → Option Json) : Json → Option Json :=
  zUnion2
    (zObject
      [("success", .required (zLiteralBool true)),
       ("data", .required dataSchema),
       ("message", .optional zString),
       ("meta", .optional zMeta)])
    (zObject
      [("success", .required (zLiteralBool false)),
       ("error", .required zApiError)])

/-! ### The response normalizer: `handleApiResponse` (gw.ts lines 252-300)

A fetch `Response` carries the HTTP status, the JSON parse of its body
text (`none` when the text is not valid JSON), and the `bodyUsed` flag.
`Response.json()` consumes the body stream: it rejects with a `TypeError`
when the body was already consumed, rejects with a `SyntaxError` when the
text is not valid JSON, and marks the body consumed in either remaining
case. -/

/-- A captured HTTP response. -/
structure Response where
  status : Nat
  body : Option Json
  bodyUsed : Bool
deriving Repr

/-- A `TRPCError` code used by `handleApiResponse`. -/
inductive TrpcCode where
  | BAD_REQUEST
  | INTERNAL_SERVER_ERROR
deriving Repr, DecidableEq

/-- The `cause` attached to a `TRPCError`: either a JSON value taken from
the response body (an envelope error object or the whole body) or the
opaque `ZodError` produced by a failed `safeParse`. -/
inductive TrpcCause where
  | jsonVal (j : Json)
  | zodIssues
deriving Repr

/-- A thrown `TRPCError`. -/
structure TRPCErrorV where
  code : TrpcCode
  message : String
  cause : Option TrpcCause
deriving Repr

/-- A failure escaping `handleApiResponse`: either one of the raw
JavaScript exceptions it does not catch, or a `TRPCError` it throws. -/
inductive JsError where
  | jsonParseExc
  | bodyConsumedExc
  | nullAccessExc
  | trpcErr (e : TRPCErrorV)
deriving Repr

/-- `response.json()`: state-passing model of the body-consuming parse. -/
def Response.jsonM (r : Response) : Except JsError Json × Response :=
  if r.bodyUsed then (.error .bodyConsumedExc, r)
  else
    match r.body with
    | none => (.error .jsonParseExc, { r with bodyUsed := true })
    | some j => (.ok j, { r with bodyUsed := true })

/-- `handleApiResponse(response, schema?)` (gw.ts 252-300), as a
state-passing function on the response.  Notes on fidelity:

* `await response.json()` is the first statement, outside any
  try/catch, so a body that is not valid JSON rejects with the raw
  `SyntaxError` (`jsonParseExc`) before the status is even inspected.
* On a non-200 status the code reads `errorData.error`; when the body is
  JSON `null` that property access itself throws (`nullAccessExc`).
  When `error` is truthy, the thrown message is
  `errorData.error.message || 'API request failed'` — a falsy message
  (absent, empty string) falls back to the generic text; non-string
  truthy messages are coerced with the usual string coercion.
* With a schema, a `safeParse` failure throws the generic
  "Invalid response format from API" error; a parsed envelope with falsy
  `success` throws BAD_REQUEST carrying `result.data.error`
  (every call site passes an `apiResponse` schema, whose failure branch
  guarantees `error.message` is a string).
* Without a schema, a truthy `success` returns `data.data` unvalidated;
  anything else throws the generic "Invalid response format" error.

`classifyBody` is the part of `handleApiResponse` after the
`await response.json()` line: it depends only on the HTTP status, the
parsed body and the schema argument. -/
def classifyBody (status : Nat) (data : Json) (schema : Option (Json → Option Json)) :
    Except JsError Json :=
  if status ≠ 200 then
    match data with
    | .null => .error .nullAccessExc
    | _ =>
      match data.getField "error" with
      | some errVal =>
        if jsTruthy errVal then
          let msg :=
            match errVal.getField "message" with
            | some m => if jsTruthy m then jsStringCoerce m else "API request failed"
            | none => "API request failed"
          .error (.trpcErr ⟨.BAD_REQUEST, msg, some (.jsonVal errVal)⟩)
        else
          .error (.trpcErr ⟨.INTERNAL_SERVER_ERROR, "API request failed", none⟩)
      | none =>
        .error (.trpcErr ⟨.INTERNAL_SERVER_ERROR, "API request failed", none⟩)
  else
    match schema with
    | some sch =>
      match sch data with
      | none =>
        .error (.trpcErr ⟨.INTERNAL_SERVER_ERROR, "Invalid response format from API",
          some .zodIssues⟩)
      | some parsed =>
        if jsTruthyOpt (parsed.getField "success") then
          .ok ((parsed.getField "data").getD .null)
        else
          let errObj := (parsed.getField "error").getD .null
          let msg :=
            match errObj.getField "message" with
            | some (.str s) => s
            | _ => ""
          .error (.trpcErr ⟨.BAD_REQUEST, msg, some (.jsonVal errObj)⟩)
    | none =>
      match data with
      | .null => .error .nullAccessExc
      | _ =>
        if jsTruthyOpt (data.getField "success") then
          .ok ((data.getField "data").getD .null)
        else
          .error (.trpcErr ⟨.INTERNAL_SERVER_ERROR, "Invalid response format from API",
            some (.jsonVal data)⟩)

/-- `handleApiResponse(response, schema?)`: consume and parse the body,
then classify.  See the notes on `classifyBody`. -/
def handleApiResponse (response : Response) (schema : Option (Json → Option Json)) :
    Except JsError Json × Response :=
  match response.jsonM with
  | (.error e, r) => (.error e, r)
  | (.ok data, r) => (classifyBody response.status data schema, r)

/-- The failure envelope `{success:false, error:{code, message, details?}}`
used throughout the claims. -/
def failureEnvelope (code msg : String) (details : Option String) : Json :=
  .obj [("success", .bool false),
        ("error", .obj ([("code", .str code), ("message", .str msg)] ++
          (match details with
           | some d => [("details", .str d)]
           | none => [])))]

/-- The error object of `failureEnvelope`. -/
def failureErrorObj (code msg : String) (details : Option String) : Json :=
  .obj ([("code", .str code), ("message", .str msg)] ++
    (match details with
     | some d => [("details", .str d)]
     | none => []))

/-- An `ApplicationError`-class result: the normalizer threw a
BAD_REQUEST `TRPCError` whose cause is an envelope error object carrying
the given code and message. -/
def carriesApiError (res : Except JsError Json) (code msg : String) : Bool :=
  match res with
  | .error (.trpcErr ⟨.BAD_REQUEST, _, some (.jsonVal e)⟩) =>
    (match e.getField "code" with
     | some (.str c) => c = code
     | _ => false) &&
    (match e.getField "message" with
     | some (.str m) => m = msg
     | _ => false)
  | _ => false

/-- Whether a normalizer result is a `{data, meta}` wrapper object (what
the spec promises for paginated operations). -/
def returnsDataMetaWrapper (res : Except JsError Json) : Bool :=
  match res with
  | .ok j => (j.getField "data").isSome && (j.getField "meta").isSome
  | _ => false

/-! ### Entity and input schemas (gw.ts lines 60-197) -/

/-- `.nullable()`. -/
def zNullable (p : Json → Option Json) : Json → Option Json :=
  fun j =>
    match j with
    | .null => some .null
    | _ => p j

/-- `GhostwriterSchema` (gw.ts 60-68). -/
def GhostwriterSchema : Json → Option Json :=
  zObject
    [("id", .required zNumber),
     ("name", .required zString),
     ("userId", .required zNumber),
     ("psyProfileId", .required (zNullable zNumber)),
     ("writingProfileId", .required (zNullable zNumber)),
     ("createdAt", .required zString),
     ("updatedAt", .required zString)]

/-- `PsyProfileSchema` (gw.ts 70-78). -/
def PsyProfileSchema : Json → Option Json :=
  zObject
    [("id", .required zNumber),
     ("name", .required zString),
     ("content", .required zString),
     ("userId", .required zNumber),
     ("ghostwriterId", .required (zNullable zNumber)),
     ("createdAt", .required zString),
     ("updatedAt", .required zString)]

/-- `WritingProfileSchema` (gw.ts 80-88): same shape as `PsyProfileSchema`. -/
def WritingProfileSchema : Json → Option Json :=
  zObject
    [("id", .required zNumber),
     ("name", .required zString),
     ("content", .required zString),
     ("userId", .required zNumber),
     ("ghostwriterId", .required (zNullable zNumber)),
     ("createdAt", .required zString),
     ("updatedAt", .required zString)]

/-- `OriginalContentSchema` (gw.ts 100-106). -/
def OriginalContentSchema : Json → Option Json :=
  zObject
    [("id", .required zNumber),
     ("content", .required zString),
     ("ghostwriterId", .required zNumber),
     ("createdAt", .required zString),
     ("updatedAt", .required zString)]

/-- `ResourceContentSchema` (gw.ts 123-130). -/
def ResourceContentSchema : Json → Option Json :=
  zObject
    [("id", .required zNumber),
     ("title", .required zString),
     ("content", .required zString),
     ("userId", .required zNumber),
     ("createdAt", .required zString),
     ("updatedAt", .required zString)]

/-- `CreateGhostwriterInput` (gw.ts 145-148). -/
def CreateGhostwriterInput : Json → Option Json :=
  zObject
    [("name", .required (zStringMin 1)),
     ("content", .required (zStringMin 1))]

/-- The `.refine` predicate of `GenerateContentInput` (gw.ts 163):
`data => data.topic || data.insightId` under JavaScript truthiness. -/
def generateContentRefinePred (data : Json) : Bool :=
  jsTruthyOpt (data.getField "topic") || jsTruthyOpt (data.getField "insightId")

/-- `GenerateContentInput` (gw.ts 156-165). -/
def GenerateContentInput : Json → Option Json :=
  zRefine
    (zObject
      [("psychologyProfileId", .required (zStringMin 1)),
       ("writingProfileId", .required (zStringMin 1)),
       ("personaProfileId", .optional zString),
       ("gwId", .optional zString),
       ("topic", .optional zString),
       ("insightId", .optional zString)])
    generateContentRefinePred

/-- Output data schema of `ghostwriter.create` (gw.ts 342-347). -/
def GhostwriterCreateOutput : Json → Option Json :=
  zObject
    [("ghostwriter", .required GhostwriterSchema),
     ("psyProfile", .required PsyProfileSchema),
     ("writingProfile", .required WritingProfileSchema),
     ("originalContents", .required (zArray OriginalContentSchema))]

/-- Output data schema of `content.generate` (gw.ts 581-588). -/
def GenerateContentOutput : Json → Option Json :=
  zObject
    [("content", .required zString),
     ("writingProfileId", .required zString),
     ("psychologyProfileId", .required zString),
     ("topic", .optional zString),
     ("gwId", .optional zString),
     ("personaProfileId", .optional zString)]

/-! ### The outbound client (ky.ts)

`createApiServerForTRPC` (ky.ts 47-131) builds requests with bare
`fetch`: `User-Id` always, `Authorization: Bearer <token>` when a token
resolves, and — for POST/PATCH — `Content-Type: application/json` only
when the body is a (truthy) string; a `FormData` body gets no explicit
content type (fetch encodes it as multipart/form-data with a boundary). -/

/-- A request body: a `FormData` object or a string. -/
inductive ReqBody where
  | form (fd : List (String × FormValue))
  | str (s : String)
deriving Repr, DecidableEq

/-- An outbound HTTP request. -/
structure OutRequest where
  method : String
  url : String
  headers : List (String × String)
  body : Option ReqBody
deriving Repr, DecidableEq

/-- The identity headers attached to every request (ky.ts 59-62 etc.). -/
def authHeaders (userId : String) (token : Option String) : List (String × String) :=
  [("User-Id", userId)] ++
    (match token with
     | some t => [("Authorization", "Bearer " ++ t)]
     | none => [])

/-- `createApiServerForTRPC().post(path, {body})` (ky.ts 68-90). -/
def trpcPostReq (baseUrl userId : String) (token : Option String) (path : String)
    (body : Option ReqBody) : OutRequest :=
  { method := "POST"
    url := baseUrl ++ "/" ++ path
    headers :=
      authHeaders userId token ++
        (match body with
         | some (.str s) => if s = "" then [] else [("Content-Type", "application/json")]
         | _ => [])
    body := body }

/-- `createApiServerForTRPC().get(path)` (ky.ts 52-66). -/
def trpcGetReq (baseUrl userId : String) (token : Option String) (path : String) : OutRequest :=
  { method := "GET"
    url := baseUrl ++ "/" ++ path
    headers := authHeaders userId token
    body := none }

/-- Whether a request announces a JSON body. -/
def hasJsonContentType (req : OutRequest) : Bool :=
  req.headers.contains ("Content-Type", "application/json")

/-- Whether a request carries a `FormData` (multipart) body. -/
def hasMultipartBody (req : OutRequest) : Bool :=
  match req.body with
  | some (.form _) => true
  | _ => false

/-! ### Retry policy (ky.ts 4-45 vs 47-131) -/

/-- A ky `retry` configuration. -/
structure RetryConfig where
  limit : Nat
  methods : List String
  statusCodes : List Nat
deriving Repr, DecidableEq

/-- `apiClient` retry configuration (ky.ts 11-15). -/
def apiClientRetry : RetryConfig :=
  { limit := 2
    methods := ["get", "post"]
    statusCodes := [408, 413, 429, 500, 502, 503, 504] }

/-- `apiServer(...)` retry configuration (ky.ts 25-29). -/
def apiServerRetry : RetryConfig :=
  { limit := 2
    methods := ["get", "post"]
    statusCodes := [408, 413, 429, 500, 502, 503, 504] }

/-- ky retry semantics: a failed attempt is retried exactly when the
request method is in `methods`, the response status is in `statusCodes`,
and fewer than `limit` retries have been performed so far. -/
def kyShouldRetry (cfg : RetryConfig) (method : String) (status : Nat)
    (retriesDone : Nat) : Bool :=
  cfg.methods.contains method && cfg.statusCodes.contains status &&
    retriesDone < cfg.limit

/-- `createApiServerForTRPC` (ky.ts 47-131) issues its requests with bare
`fetch` and contains no retry logic at all: no attempt is ever retried. -/
def trpcFetchShouldRetry (_method : String) (_status : Nat) (_retriesDone : Nat) : Bool :=
  false

/-! ### The tRPC mutation pipeline (init.ts, gw.ts operation bodies)

A `baseProcedure.input(S).mutation(resolver)` procedure first parses the
raw input with `S`; a parse failure throws a BAD_REQUEST `TRPCError`
carrying the `ZodError`, and the resolver — which is the only place a
network request is issued — never runs.  The resolver is modelled as a
function from the parsed input to its result together with the list of
outbound requests it issued. -/

/-- Run a mutation procedure: validate, then resolve. -/
def runMutation (inputSchema : Json → Option Json)
    (resolver : Json → Except JsError Json × List OutRequest)
    (rawInput : Json) : Except JsError Json × List OutRequest :=
  match inputSchema rawInput with
  | none => (.error (.trpcErr ⟨.BAD_REQUEST, "Input validation failed", some .zodIssues⟩), [])
  | some parsed => resolver parsed

/-- Convert a parsed JSON input value to the JavaScript record handed to
`createFormData`.  The arr/obj fallback coerces through `String(value)`;
no formData-encoded input schema in gw.ts has an array or object field,
so that branch is unreachable from the embedded call sites. -/
def Json.toJsValue : Json → JsValue
  | .null => .null
  | .bool b => .bool b
  | .num n => .num n
  | .str s => .str s
  | j => .str (jsStringCoerce j)

/-- The entries of a parsed input object, as JavaScript values. -/
def Json.formEntries : Json → List (String × JsValue)
  | .obj fields => fields.map (fun kv => (kv.1, kv.2.toJsValue))
  | _ => []

/-- `ghostwriter.create` (gw.ts 336-348): resolver body after input
validation — build the form data, POST to the entity-creation path,
normalize the response against `ApiResponse(GhostwriterCreateOutput)`. -/
def ghostwriterCreateResolver (baseUrl userId : String) (token : Option String)
    (response : Response) (input : Json) : Except JsError Json × List OutRequest :=
  ((handleApiResponse response (some (ApiResponse GhostwriterCreateOutput))).1,
   [trpcPostReq baseUrl userId token "gw"
      (some (.form (createFormData input.formEntries)))])

/-- The full `ghostwriter.create` call: input validation, then resolver. -/
def ghostwriterCreateCall (baseUrl userId : String) (token : Option String)
    (response : Response) (rawInput : Json) : Except JsError Json × List OutRequest :=
  runMutation CreateGhostwriterInput
    (ghostwriterCreateResolver baseUrl userId token response) rawInput

/-- `content.generate` (gw.ts 575-589): resolver body after input
validation. -/
def contentGenerateResolver (baseUrl userId : String) (token : Option String)
    (response : Response) (input : Json) : Except JsError Json × List OutRequest :=
  ((handleApiResponse response (some (ApiResponse GenerateContentOutput))).1,
   [trpcPostReq baseUrl userId token "gw/generate"
      (some (.form (createFormData input.formEntries)))])

/-- The full `content.generate` call: input validation, then resolver. -/
def contentGenerateCall (baseUrl userId : String) (token : Option String)
    (response : Response) (rawInput : Json) : Except JsError Json × List OutRequest :=
  runMutation GenerateContentInput
    (contentGenerateResolver baseUrl userId token response) rawInput

/-- The request built by `ghostwriter.create` for an actual input record
(gw.ts 339-341: `createFormData(input)` then `apiClient.post('gw',
{body: formData})`). -/
def ghostwriterCreateRequest (baseUrl userId : String) (token : Option String)
    (input : List (String × JsValue)) : OutRequest :=
  trpcPostReq baseUrl userId token "gw" (some (.form (createFormData input)))

/-- The request built by `resources.uploadPdf` (gw.ts 692-695). -/
def uploadPdfRequest (baseUrl userId : String) (token : Option String)
    (input : List (String × JsValue)) : OutRequest :=
  trpcPostReq baseUrl userId token "gw/pdf-resource" (some (.form (createFormData input)))

/-- A sample resource entity matching `ResourceContentSchema`. -/
def sampleResource : Json :=
  .obj [("id", .num 7), ("title", .str "Deep Work"), ("content", .str "chapter text"),
        ("userId", .num 3), ("createdAt", .str "2025-01-01"), ("updatedAt", .str "2025-01-02")]

/-- A sample pagination `meta` object as returned by list endpoints. -/
def sampleMeta : Json :=
  .obj [("page", .num 1), ("limit", .num 20), ("total", .num 45), ("hasMore", .bool true)]

/-- A captured `resources.list` 200 response carrying data and meta. -/
def sampleListResponse : Response :=
  ⟨200, some (.obj [("success", .bool true), ("data", .arr [sampleResource]),
    ("meta", sampleMeta)]), false⟩

/-!
## Helper lemmas
-/

theorem foldl_appendFormEntry (data : List (String × JsValue))
    (acc : List (String × FormValue)) :
    data.foldl appendFormEntry acc = acc ++ data.filterMap serializeEntry := by
  induction data generalizing acc with
  | nil => simp
  | cons kv rest ih =>
    obtain ⟨k, v⟩ := kv
    cases v <;> simp [appendFormEntry, serializeEntry, ih, JsValue.jsString]

theorem createFormData_eq_filterMap (data : List (String × JsValue)) :
    createFormData data = data.filterMap serializeEntry := by
  simpa using foldl_appendFormEntry data []

theorem parseFields_missing_required :
    ∀ (shape : List (String × ZField)) (j : Json) (k : String) (p : Json → Option Json),
      (k, ZField.required p) ∈ shape → j.getField k = none →
      parseFields shape j = none := by
  intro shape
  induction shape with
  | nil => intro j k p hmem; cases hmem
  | cons hd rest ih =>
    intro j k p hmem hk
    obtain ⟨k', fld'⟩ := hd
    rcases List.mem_cons.mp hmem with heq | htail
    · injection heq with h1 h2
      subst h1; subst h2
      simp [parseFields, hk]
    · simp only [parseFields]
      cases hf : j.getField k' with
      | none =>
        cases fld' with
        | required q => simp
        | optional q => simpa using ih j k p htail hk
      | some v =>
        cases hp : fld'.valueParser v with
        | none => simp [hp]
        | some v' => simp [hp, ih j k p htail hk]

theorem parseFields_key_absent :
    ∀ (shape : List (String × ZField)) (fields : List (String × Json)) (k : String),
      Json.getField (.obj fields) k = none →
      ∀ out, parseFields shape (.obj fields) = some out →
      Json.getField (.obj out) k = none := by
  intro shape
  induction shape with
  | nil =>
    intro fields k hk out hout
    simp [parseFields] at hout
    subst hout
    simp [Json.getField]
  | cons hd rest ih =>
    intro fields k hk out hout
    obtain ⟨k', fld'⟩ := hd
    simp only [parseFields] at hout
    cases hf : Json.getField (.obj fields) k' with
    | none =>
      simp only [hf] at hout
      cases fld' with
      | required q => cases hout
      | optional q => exact ih fields k hk out hout
    | some v =>
      simp only [hf] at hout
      cases hp : ZField.valueParser fld' v with
      | none => simp [hp] at hout
      | some v' =>
        simp only [hp] at hout
        rcases Option.map_eq_some'.mp hout with ⟨tl, htl, rfl⟩
        have hkk : k' ≠ k := by
          intro h
          rw [h, hk] at hf
          cases hf
        have htail := ih fields k hk tl htl
        simp only [Json.getField, List.find?_cons] at htail ⊢
        have hd : (decide (k' = k)) = false := by simp [hkk]
        rw [hd]
        simpa using htail

theorem zObject_missing_required (shape : List (String × ZField)) (j : Json) (k : String)
    (p : Json → Option Json) (hmem : (k, ZField.required p) ∈ shape)
    (hk : j.getField k = none) : zObject shape j = none := by
  cases j with
  | obj fields => simp [zObject, parseFields_missing_required shape _ k p hmem hk]
  | null => rfl
  | bool b => rfl
  | num n => rfl
  | str s => rfl
  | arr xs => rfl

theorem zObject_key_absent (shape : List (String × ZField)) (j : Json) (k : String)
    (hk : j.getField k = none) (parsed : Json) (hp : zObject shape j = some parsed) :
    parsed.getField k = none := by
  cases j with
  | obj fields =>
    simp only [zObject] at hp
    rcases Option.map_eq_some'.mp hp with ⟨out, hout, rfl⟩
    exact parseFields_key_absent shape fields k hk out hout
  | null => exact Option.noConfusion hp
  | bool b => exact Option.noConfusion hp
  | num n => exact Option.noConfusion hp
  | str s => exact Option.noConfusion hp
  | arr xs => exact Option.noConfusion hp

theorem zRefine_eq_none (p : Json → Option Json) (pred : Json → Bool) (j : Json)
    (h : ∀ v, p j = some v → pred v = false) : zRefine p pred j = none := by
  unfold zRefine
  cases hp : p j with
  | none => rfl
  | some v => simp [h v hp]

theorem generateContentInput_rejects (rawInput : Json)
    (ht : rawInput.getField "topic" = none) (hi : rawInput.getField "insightId" = none) :
    GenerateContentInput rawInput = none := by
  refine zRefine_eq_none _ _ _ (fun v hv => ?_)
  have h1 := zObject_key_absent _ _ _ ht _ hv
  have h2 := zObject_key_absent _ _ _ hi _ hv
  simp [generateContentRefinePred, h1, h2, jsTruthyOpt]

/-!
## Claim theorems
-/

/-- Claim C1, amended.  A failure envelope body raises the
application-level failure (BAD_REQUEST carrying the envelope's code and
message in its cause) whenever the status is not 200 — for any schema
argument — or the status is 200 and an `ApiResponse` output schema was
supplied.  (The remaining case, a 200 response normalized without an
output schema, instead raises the generic internal failure: see the C1
counterexample and claim C10.) -/
theorem c1_envelope_error_classified (C M : String) (d : Option String) (status : Nat)
    (schema : Option (Json → Option Json)) (dataSchema : Json → Option Json) :
    (status ≠ 200 →
      carriesApiError
        (handleApiResponse ⟨status, some (failureEnvelope C M d), false⟩ schema).1 C M = true)
    ∧ carriesApiError
        (handleApiResponse ⟨200, some (failureEnvelope C M d), false⟩
          (some (ApiResponse dataSchema))).1 C M = true := by
  constructor
  · intro h
    cases d <;>
      simp [handleApiResponse, Response.jsonM, classifyBody, carriesApiError,
        failureEnvelope, Json.getField, jsTruthy, jsTruthyOpt, jsStringCoerce,
        List.find?, h]
  · cases d <;>
      simp [handleApiResponse, Response.jsonM, classifyBody, carriesApiError,
        failureEnvelope, ApiResponse, zUnion2, zObject, parseFields, ZField.valueParser,
        zLiteralBool, zApiError, zString, Json.getField, jsTruthy, jsTruthyOpt,
        List.find?]

/-- Witness for C1 at concrete inputs: a 500 response and a 200 response
with an output schema, both carrying the failure envelope. -/
theorem c1_witness :
    (500 ≠ 200)
    ∧ carriesApiError
        (handleApiResponse ⟨500, some (failureEnvelope "E1" "M1" none), false⟩ none).1
        "E1" "M1" = true
    ∧ carriesApiError
        (handleApiResponse ⟨200, some (failureEnvelope "E1" "M1" none), false⟩
          (some (ApiResponse zString))).1 "E1" "M1" = true :=
  ⟨by decide,
   (c1_envelope_error_classified "E1" "M1" none 500 none zString).1 (by decide),
   (c1_envelope_error_classified "E1" "M1" none 200 none zString).2⟩

/-- Counterexample to C1 as stated: a 200 response whose body is the
failure envelope, normalized without an output schema (exactly what the
ghostwriter delete operation does), raises the generic internal
"Invalid response format from API" failure, not an application error
carrying the envelope's code and message. -/
theorem c1_counterexample :
    carriesApiError
      (handleApiResponse ⟨200, some (failureEnvelope "E_CODE" "boom" none), false⟩ none).1
      "E_CODE" "boom" = false
    ∧ (handleApiResponse ⟨200, some (failureEnvelope "E_CODE" "boom" none), false⟩ none).1
      = .error (.trpcErr ⟨.INTERNAL_SERVER_ERROR, "Invalid response format from API",
          some (.jsonVal (failureEnvelope "E_CODE" "boom" none))⟩) :=
  ⟨rfl, rfl⟩

/-- Claim C2 (code bug).  `handleApiResponse` calls `response.json()`
before any status inspection and outside any try/catch, so a response
whose body is not valid JSON — the 500-with-unparseable-body scenario
included — makes the raw JSON parse exception escape to the caller; no
`TransportError`-style classification happens. -/
theorem c2_parse_exception_leaks (schema : Option (Json → Option Json)) :
    handleApiResponse ⟨500, none, false⟩ schema = (.error .jsonParseExc, ⟨500, none, true⟩)
    ∧ ∀ status : Nat, handleApiResponse ⟨status, none, false⟩ schema
        = (.error .jsonParseExc, ⟨status, none, true⟩) :=
  ⟨rfl, fun _ => rfl⟩

/-- Claim C3, amended.  A 200 response `{success:true, data:X, meta:M}`
whose `X` round-trips through the operation's data schema and whose `M`
matches the meta shape normalizes to the bare `X`: the validated meta is
discarded by `handleApiResponse` (it returns only `result.data.data`), so
paginated operations receive the bare array, not a `{data, meta}`
wrapper. -/
theorem c3_success_data_returned (sch : Json → Option Json) (X M M' : Json)
    (hX : sch X = some X) (hM : zMeta M = some M') :
    (handleApiResponse
      ⟨200, some (.obj [("success", .bool true), ("data", X), ("meta", M)]), false⟩
      (some (ApiResponse sch))).1 = .ok X := by
  simp [handleApiResponse, Response.jsonM, classifyBody, ApiResponse, zUnion2, zObject,
    parseFields, ZField.valueParser, zLiteralBool, Json.getField, List.find?,
    jsTruthyOpt, jsTruthy, hX, hM]

/-- Witness for C3: the sample `resources.list` response round-trips its
data array and satisfies both hypotheses concretely. -/
theorem c3_witness :
    zArray ResourceContentSchema (.arr [sampleResource]) = some (.arr [sampleResource])
    ∧ zMeta sampleMeta = some sampleMeta
    ∧ (handleApiResponse sampleListResponse
        (some (ApiResponse (zArray ResourceContentSchema)))).1 = .ok (.arr [sampleResource]) :=
  ⟨rfl, rfl, c3_success_data_returned (zArray ResourceContentSchema)
    (.arr [sampleResource]) sampleMeta sampleMeta rfl rfl⟩

/-- Counterexample to C3 as stated: normalizing the sample paginated
`resources.list` response returns the bare data array — the result has no
`data`/`meta` wrapper and the meta object (page/limit/total/hasMore) is
not returned to the caller. -/
theorem c3_meta_dropped_counterexample :
    (handleApiResponse sampleListResponse
      (some (ApiResponse (zArray ResourceContentSchema)))).1 = .ok (.arr [sampleResource])
    ∧ returnsDataMetaWrapper
        (handleApiResponse sampleListResponse
          (some (ApiResponse (zArray ResourceContentSchema)))).1 = false :=
  ⟨rfl, rfl⟩

/-- Claim C4, amended.  `ghostwriter.create` (no file-like fields) and
`resources.uploadPdf` (file-like field) both send a multipart `FormData`
body built by `createFormData`; neither carries
`Content-Type: application/json` (that header is only set for string
bodies, which no gw operation passes), and every file-like field of the
actual input is appended to the form as a binary part under its key. -/
theorem c4_encoding (baseUrl userId : String) (token : Option String)
    (input : List (String × JsValue)) :
    (ghostwriterCreateRequest baseUrl userId token input).body
        = some (.form (createFormData input))
    ∧ hasJsonContentType (ghostwriterCreateRequest baseUrl userId token input) = false
    ∧ (uploadPdfRequest baseUrl userId token input).body
        = some (.form (createFormData input))
    ∧ hasJsonContentType (uploadPdfRequest baseUrl userId token input) = false
    ∧ (∀ (k : String) (f : FileVal), (k, JsValue.file f) ∈ input →
        (k, FormValue.filePart f) ∈ createFormData input) := by
  refine ⟨rfl, ?_, rfl, ?_, ?_⟩
  · cases token <;> rfl
  · cases token <;> rfl
  · intro k f hmem
    rw [createFormData_eq_filterMap]
    exact List.mem_filterMap.mpr ⟨(k, .file f), hmem, rfl⟩

/-- Witness for C4: a concrete PDF upload input whose file field lands in
the form data as a binary part. -/
theorem c4_witness :
    (("pdfFile", JsValue.file ⟨"a.pdf", "PDFBYTES"⟩) ∈
        ([("pdfFile", JsValue.file ⟨"a.pdf", "PDFBYTES"⟩), ("title", JsValue.str "T")] :
          List (String × JsValue)))
    ∧ ("pdfFile", FormValue.filePart ⟨"a.pdf", "PDFBYTES"⟩) ∈
        createFormData
          [("pdfFile", JsValue.file ⟨"a.pdf", "PDFBYTES"⟩), ("title", JsValue.str "T")] :=
  ⟨List.Mem.head _,
   (c4_encoding "https://api" "u" none
     [("pdfFile", JsValue.file ⟨"a.pdf", "PDFBYTES"⟩), ("title", JsValue.str "T")]).2.2.2.2
     "pdfFile" ⟨"a.pdf", "PDFBYTES"⟩ (List.Mem.head _)⟩

/-- Counterexample to C4 as stated: the create-ghostwriter operation with
only string fields (Scenario A) produces a multipart `FormData` body and
no `Content-Type: application/json` header — not a JSON body. -/
theorem c4_counterexample :
    hasMultipartBody (ghostwriterCreateRequest "https://api" "user-1" none
      [("name", .str "Alice Writer"), ("content", .str "sample1===sample2")]) = true
    ∧ hasJsonContentType (ghostwriterCreateRequest "https://api" "user-1" none
      [("name", .str "Alice Writer"), ("content", .str "sample1===sample2")]) = false :=
  ⟨rfl, rfl⟩

/-- Claim C5.  A `ghostwriter.create` call whose raw input lacks the
required `name` or `content` field fails input validation with the
BAD_REQUEST validation error and issues no outbound request at all. -/
theorem c5_validation_gate (baseUrl userId : String) (token : Option String)
    (resp : Response) (rawInput : Json)
    (h : rawInput.getField "name" = none ∨ rawInput.getField "content" = none) :
    ghostwriterCreateCall baseUrl userId token resp rawInput =
      (.error (.trpcErr ⟨.BAD_REQUEST, "Input validation failed", some .zodIssues⟩), []) := by
  have hv : CreateGhostwriterInput rawInput = none := by
    rcases h with h | h
    · exact zObject_missing_required _ _ _ _ (List.Mem.head _) h
    · exact zObject_missing_required _ _ _ _ (List.Mem.tail _ (List.Mem.head _)) h
  simp [ghostwriterCreateCall, runMutation, hv]

/-- Witness for C5: creating a ghostwriter without a `name` is rejected
before any network call. -/
theorem c5_witness :
    ((Json.obj [("content", Json.str "text")]).getField "name" = none
     ∨ (Json.obj [("content", Json.str "text")]).getField "content" = none)
    ∧ ghostwriterCreateCall "https://api" "u1" none ⟨200, some (.obj []), false⟩
        (.obj [("content", .str "text")])
      = (.error (.trpcErr ⟨.BAD_REQUEST, "Input validation failed", some .zodIssues⟩), []) :=
  ⟨Or.inl rfl,
   c5_validation_gate "https://api" "u1" none ⟨200, some (.obj []), false⟩
     (.obj [("content", .str "text")]) (Or.inl rfl)⟩

/-- Claim C6.  `createFormData` distributes over record concatenation and
serializes a single entry as the claim states: booleans become the
literal strings "true"/"false", numbers their decimal string form,
`undefined`/`null` entries are omitted entirely, and `File`/`Blob` values
are appended as binary parts under their key. -/
theorem c6_formdata_serialization :
    (∀ xs ys : List (String × JsValue),
      createFormData (xs ++ ys) = createFormData xs ++ createFormData ys)
    ∧ (∀ (k : String) (b : Bool),
        createFormData [(k, .bool b)] = [(k, .text (if b then "true" else "false"))])
    ∧ (∀ (k : String) (n : Int), createFormData [(k, .num n)] = [(k, .text (toString n))])
    ∧ (∀ k : String, createFormData [(k, .undef)] = [] ∧ createFormData [(k, .null)] = [])
    ∧ (∀ (k : String) (f : FileVal), createFormData [(k, .file f)] = [(k, .filePart f)])
    ∧ (∀ (k c : String), createFormData [(k, .blob c)] = [(k, .blobPart c)]) := by
  refine ⟨?_, ?_, ?_, ?_, ?_, ?_⟩ <;>
    intros <;>
    simp [createFormData_eq_filterMap, serializeEntry, JsValue.jsString]

/-- Claim C7.  Both ky clients retry a failed attempt only for the seven
transient status codes, only for get/post, and at most twice (never once
two retries have been performed); they do retry such an attempt while
under the limit.  The fetch-based client used by the tRPC router performs
no retries at all. -/
theorem c7_retry_policy (method : String) (status n : Nat) :
    (2 ≤ n → kyShouldRetry apiClientRetry method status n = false
      ∧ kyShouldRetry apiServerRetry method status n = false)
    ∧ (apiClientRetry.statusCodes.contains status = false →
        kyShouldRetry apiClientRetry method status n = false
        ∧ kyShouldRetry apiServerRetry method status n = false)
    ∧ (apiClientRetry.methods.contains method = true →
        apiClientRetry.statusCodes.contains status = true → n < 2 →
        kyShouldRetry apiClientRetry method status n = true
        ∧ kyShouldRetry apiServerRetry method status n = true)
    ∧ trpcFetchShouldRetry method status n = false := by
  refine ⟨?_, ?_, ?_, rfl⟩
  · intro h
    constructor <;> simp [kyShouldRetry, apiClientRetry, apiServerRetry, Nat.not_lt.mpr h]
  · intro h
    constructor <;> simp_all [kyShouldRetry, apiClientRetry, apiServerRetry]
  · intro hm hs hn
    constructor <;> simp_all [kyShouldRetry, apiClientRetry, apiServerRetry]

/-- Witness for C7 at concrete inputs: 404 is never retried, 500 is not
retried after two retries, 500 is retried on the first failure, and the
fetch-based client never retries. -/
theorem c7_witness :
    kyShouldRetry apiClientRetry "post" 404 0 = false
    ∧ kyShouldRetry apiClientRetry "post" 500 2 = false
    ∧ kyShouldRetry apiClientRetry "post" 500 0 = true
    ∧ trpcFetchShouldRetry "post" 500 0 = false :=
  ⟨((c7_retry_policy "post" 404 0).2.1 (by decide)).1,
   ((c7_retry_policy "post" 500 2).1 (by decide)).1,
   ((c7_retry_policy "post" 500 0).2.2.1 (by decide) (by decide) (by decide)).1,
   (c7_retry_policy "post" 500 0).2.2.2⟩

/-- Claim C8, amended.  `handleApiResponse` consumes the response body:
it returns the response with `bodyUsed` set, and invoking it on an
already-consumed response yields the body-already-consumed failure, not
the first result.  Normalization is nonetheless deterministic in the
captured status and body: on an unconsumed response the classified result
is `classifyBody status body schema`, a pure function, so re-running on
the same response with the body restored reproduces the first run. -/
theorem c8_normalizer_state (resp : Response) (schema : Option (Json → Option Json)) :
    ((handleApiResponse resp schema).2 = { resp with bodyUsed := true })
    ∧ (resp.bodyUsed = true →
        (handleApiResponse resp schema).1 = .error .bodyConsumedExc)
    ∧ (resp.bodyUsed = false →
        handleApiResponse { (handleApiResponse resp schema).2 with bodyUsed := false } schema
          = handleApiResponse resp schema)
    ∧ (∀ j : Json, resp.bodyUsed = false → resp.body = some j →
        (handleApiResponse resp schema).1 = classifyBody resp.status j schema) := by
  obtain ⟨s, b, u⟩ := resp
  refine ⟨?_, ?_, ?_, ?_⟩
  · cases u <;> cases b <;> rfl
  · intro h
    cases u with
    | false => cases h
    | true => rfl
  · intro h
    cases u with
    | false => cases b <;> rfl
    | true => cases h
  · intro j hu hb
    cases u with
    | false =>
      cases b with
      | none => cases hb
      | some j' => injection hb with hb; subst hb; rfl
    | true => cases hu

/-- Witness for C8 at a concrete response: a consumed body yields the
consumed-body failure, and a restored body reproduces the run. -/
theorem c8_witness :
    (handleApiResponse ⟨200, some (.obj [("success", .bool true), ("data", .num 2)]), true⟩
      none).1 = .error .bodyConsumedExc
    ∧ handleApiResponse
        { (handleApiResponse
            ⟨200, some (.obj [("success", .bool true), ("data", .num 2)]), false⟩ none).2
          with bodyUsed := false } none
      = handleApiResponse
          ⟨200, some (.obj [("success", .bool true), ("data", .num 2)]), false⟩ none :=
  ⟨(c8_normalizer_state ⟨200, some (.obj [("success", .bool true), ("data", .num 2)]), true⟩
      none).2.1 rfl,
   (c8_normalizer_state ⟨200, some (.obj [("success", .bool true), ("data", .num 2)]), false⟩
      none).2.2.1 rfl⟩

/-- Counterexample to C8 as stated: running the normalizer twice on the
same captured response object does not yield the same result — the first
run returns the data, the second fails with the body-already-consumed
error, because the first run mutated the response's body stream state. -/
theorem c8_counterexample :
    (handleApiResponse
      ⟨200, some (.obj [("success", .bool true), ("data", .num 1)]), false⟩ none).1
      = .ok (.num 1)
    ∧ (handleApiResponse
        (handleApiResponse
          ⟨200, some (.obj [("success", .bool true), ("data", .num 1)]), false⟩ none).2
        none).1 = .error .bodyConsumedExc
    ∧ (handleApiResponse
        ⟨200, some (.obj [("success", .bool true), ("data", .num 1)]), false⟩ none).1
      ≠ (handleApiResponse
          (handleApiResponse
            ⟨200, some (.obj [("success", .bool true), ("data", .num 1)]), false⟩ none).2
          none).1 := by
  refine ⟨rfl, rfl, ?_⟩
  intro h
  rw [show (handleApiResponse
        ⟨200, some (.obj [("success", .bool true), ("data", .num 1)]), false⟩ none).1
      = Except.ok (Json.num 1) from rfl] at h
  rw [show (handleApiResponse
        (handleApiResponse
          ⟨200, some (.obj [("success", .bool true), ("data", .num 1)]), false⟩ none).2
        none).1 = Except.error JsError.bodyConsumedExc from rfl] at h
  exact Except.noConfusion h

/-- Claim C9, amended.  An input for `content.generate` providing neither
`topic` nor `insightId` is rejected by input validation with no outbound
request; the refinement accepts an input as soon as `topic` or
`insightId` is a nonempty string.  (An empty-string `topic` or
`insightId` counts as absent under the JavaScript truthiness the
refinement uses: see the C9 counterexample.) -/
theorem c9_refinement (baseUrl userId : String) (token : Option String)
    (resp : Response) (rawInput j : Json) (s : String) :
    (rawInput.getField "topic" = none → rawInput.getField "insightId" = none →
      contentGenerateCall baseUrl userId token resp rawInput =
        (.error (.trpcErr ⟨.BAD_REQUEST, "Input validation failed", some .zodIssues⟩), []))
    ∧ (s ≠ "" →
        (j.getField "topic" = some (.str s) ∨ j.getField "insightId" = some (.str s)) →
        generateContentRefinePred j = true) := by
  constructor
  · intro ht hi
    simp [contentGenerateCall, runMutation, generateContentInput_rejects rawInput ht hi]
  · intro hs h
    rcases h with h | h <;>
      simp [generateContentRefinePred, h, jsTruthyOpt, jsTruthy, hs]

/-- Witness for C9: an input with neither topic nor insightId is rejected
with no network call; an input with a nonempty topic passes the
refinement. -/
theorem c9_witness :
    contentGenerateCall "https://api" "u1" none ⟨200, some (.obj []), false⟩
        (.obj [("psychologyProfileId", .str "1"), ("writingProfileId", .str "2")])
      = (.error (.trpcErr ⟨.BAD_REQUEST, "Input validation failed", some .zodIssues⟩), [])
    ∧ generateContentRefinePred (.obj [("topic", .str "AI in 2024")]) = true :=
  ⟨(c9_refinement "https://api" "u1" none ⟨200, some (.obj []), false⟩
      (.obj [("psychologyProfileId", .str "1"), ("writingProfileId", .str "2")])
      (.obj [("topic", .str "AI in 2024")]) "AI in 2024").1 rfl rfl,
   (c9_refinement "https://api" "u1" none ⟨200, some (.obj []), false⟩
      (.obj [("psychologyProfileId", .str "1"), ("writingProfileId", .str "2")])
      (.obj [("topic", .str "AI in 2024")]) "AI in 2024").2 (by decide) (Or.inl rfl)⟩

/-- Counterexample to C9 as stated: an input that does provide `topic` —
as the empty string — fails the refinement (JavaScript `||` treats ""
as falsy), so "every input providing at least one of the two passes" is
false: validation rejects it and no request is issued. -/
theorem c9_counterexample :
    GenerateContentInput
      (.obj [("psychologyProfileId", .str "1"), ("writingProfileId", .str "2"),
             ("topic", .str "")]) = none
    ∧ contentGenerateCall "https://api" "u1" none ⟨200, some (.obj []), false⟩
        (.obj [("psychologyProfileId", .str "1"), ("writingProfileId", .str "2"),
               ("topic", .str "")])
      = (.error (.trpcErr ⟨.BAD_REQUEST, "Input validation failed", some .zodIssues⟩), []) :=
  ⟨rfl, rfl⟩

/-- Claim C10.  Normalizing without an output schema (the ghostwriter
delete operation): a 200 response whose envelope has `success:false`
raises the generic internal "Invalid response format from API" failure —
not an application error carrying the envelope's code and message — and a
200 response with `success:true` returns the envelope's `data` field
completely unvalidated (any JSON value `X` is passed through). -/
theorem c10_no_schema_behavior (C M : String) (d : Option String) (X : Json) :
    ((handleApiResponse ⟨200, some (failureEnvelope C M d), false⟩ none).1
      = .error (.trpcErr ⟨.INTERNAL_SERVER_ERROR, "Invalid response format from API",
          some (.jsonVal (failureEnvelope C M d))⟩))
    ∧ carriesApiError
        (handleApiResponse ⟨200, some (failureEnvelope C M d), false⟩ none).1 C M = false
    ∧ (handleApiResponse ⟨200, some (.obj [("success", .bool true), ("data", X)]), false⟩
        none).1 = .ok X := by
  refine ⟨?_, ?_, rfl⟩ <;> cases d <;> rfl

end SoloCopilot
